import Mathlib

/-!
Verification of the Bridge Telemetry Client (browser ROS client).

The development shallowly embeds the data model and operations of the
client: the laser-scan frame decoder (updateLaserScan), the raw-image
frame decoder (handleRawImage), the navigation status machine
(handleNavigationStatus and the status-array subscription callback),
the camera compressed-to-raw fallback probe, and the bridge-connection
lifecycle (connect, transport events, reconnect scheduling, caller
disconnect).

Numbers flowing through the scan decoder are JavaScript numbers; they
are modelled as rationals extended with NaN and the two infinities,
with the JavaScript comparison and arithmetic semantics (NaN compares
false, 0/0 = NaN, x/0 = signed infinity). Rounding of IEEE doubles is
not modelled; the zero is unsigned and division treats it as +0.
The trigonometric functions cos and sin are host-runtime capabilities
and are passed to the decoder as parameters.
-/

/-- JavaScript number: NaN, the two infinities, or a finite value
modelled as a rational. -/
inductive JSNum where
  | nan : JSNum
  | posInf : JSNum
  | negInf : JSNum
  | val : ℚ → JSNum
deriving DecidableEq, Repr

/-- The JavaScript isNaN test. -/
def jIsNaN : JSNum → Bool
  | .nan => true
  | _ => false

/-- JavaScript strict less-than: any comparison with NaN is false. -/
def jlt : JSNum → JSNum → Bool
  | .nan, _ => false
  | _, .nan => false
  | .negInf, .negInf => false
  | .negInf, _ => true
  | _, .negInf => false
  | .posInf, _ => false
  | .val _, .posInf => true
  | .val a, .val b => decide (a < b)

/-- JavaScript strict greater-than. -/
def jgt (a b : JSNum) : Bool := jlt b a

/-- JavaScript negation. -/
def jneg : JSNum → JSNum
  | .nan => .nan
  | .posInf => .negInf
  | .negInf => .posInf
  | .val a => .val (-a)

/-- JavaScript addition on the extended rationals. -/
def jadd : JSNum → JSNum → JSNum
  | .nan, _ => .nan
  | _, .nan => .nan
  | .posInf, .negInf => .nan
  | .negInf, .posInf => .nan
  | .posInf, _ => .posInf
  | _, .posInf => .posInf
  | .negInf, _ => .negInf
  | _, .negInf => .negInf
  | .val a, .val b => .val (a + b)

/-- JavaScript subtraction. -/
def jsub (a b : JSNum) : JSNum := jadd a (jneg b)

/-- JavaScript multiplication; infinity times zero is NaN. -/
def jmul : JSNum → JSNum → JSNum
  | .nan, _ => .nan
  | _, .nan => .nan
  | .posInf, .posInf => .posInf
  | .posInf, .negInf => .negInf
  | .negInf, .posInf => .negInf
  | .negInf, .negInf => .posInf
  | .posInf, .val b => if b = 0 then .nan else if 0 < b then .posInf else .negInf
  | .val a, .posInf => if a = 0 then .nan else if 0 < a then .posInf else .negInf
  | .negInf, .val b => if b = 0 then .nan else if 0 < b then .negInf else .posInf
  | .val a, .negInf => if a = 0 then .nan else if 0 < a then .negInf else .posInf
  | .val a, .val b => .val (a * b)

/-- JavaScript division; 0/0 is NaN, a nonzero value over zero is a
signed infinity, a finite value over an infinity is zero. -/
def jdiv : JSNum → JSNum → JSNum
  | .nan, _ => .nan
  | _, .nan => .nan
  | .posInf, .posInf => .nan
  | .posInf, .negInf => .nan
  | .negInf, .posInf => .nan
  | .negInf, .negInf => .nan
  | .posInf, .val b => if 0 ≤ b then .posInf else .negInf
  | .negInf, .val b => if 0 ≤ b then .negInf else .posInf
  | .val _, .posInf => .val 0
  | .val _, .negInf => .val 0
  | .val a, .val b =>
    if b = 0 then (if a = 0 then .nan else if 0 < a then .posInf else .negInf)
    else .val (a / b)

/-- The scan-frame snapshot stored by the client from a LaserScan
message: the ranges sequence and the angular and range metadata. -/
structure ScanFrame where
  ranges : List JSNum
  angle_min : JSNum
  angle_max : JSNum
  angle_increment : JSNum
  range_min : JSNum
  range_max : JSNum
deriving DecidableEq, Repr

/-- The skip test of updateLaserScan: a reading is skipped when it is
NaN, strictly below range_min, or strictly above range_max. -/
def scanSkip (scan : ScanFrame) (range : JSNum) : Bool :=
  jIsNaN range || jlt range scan.range_min || jgt range scan.range_max

/-- The angle of reading i: angle_min + i * angle_increment. -/
def scanAngle (scan : ScanFrame) (i : Nat) : JSNum :=
  jadd scan.angle_min (jmul (JSNum.val (i : ℚ)) scan.angle_increment)

/-- The three position entries pushed for a retained reading:
range times cos of the angle, range times sin of the angle, and 0. -/
def scanPoint (jcos jsin : JSNum → JSNum) (scan : ScanFrame) (i : Nat)
    (range : JSNum) : List JSNum :=
  [jmul range (jcos (scanAngle scan i)), jmul range (jsin (scanAngle scan i)),
   JSNum.val 0]

/-- The three color entries pushed for a retained reading: red 1, green
the normalized range (range minus range_min over range_max minus
range_min), blue 0. -/
def scanColor (scan : ScanFrame) (range : JSNum) : List JSNum :=
  [JSNum.val 1,
   jdiv (jsub range scan.range_min) (jsub scan.range_max scan.range_min),
   JSNum.val 0]

/-- The loop body of updateLaserScan over the ranges sequence, carrying
the running index; skipped readings push nothing, retained readings
push their position triple and color triple. -/
def scanGo (jcos jsin : JSNum → JSNum) (scan : ScanFrame) :
    Nat → List JSNum → List JSNum × List JSNum
  | _, [] => ([], [])
  | i, range :: rest =>
    let tail := scanGo jcos jsin scan (i + 1) rest
    if scanSkip scan range then tail
    else (scanPoint jcos jsin scan i range ++ tail.1,
          scanColor scan range ++ tail.2)

/-- The scan frame decoder: flat positions array and flat colors array,
as pushed by the source loop. The cos and sin functions of the host
runtime are passed in as parameters. -/
def updateLaserScan (jcos jsin : JSNum → JSNum) (scan : ScanFrame) :
    List JSNum × List JSNum :=
  scanGo jcos jsin scan 0 scan.ranges

theorem scanGo_spec (jcos jsin : JSNum → JSNum) (scan : ScanFrame) :
    ∀ (rs : List JSNum) (i : Nat),
      scanGo jcos jsin scan i rs =
        (((List.enumFrom i rs).filter (fun p => !scanSkip scan p.2)).flatMap
            (fun p => scanPoint jcos jsin scan p.1 p.2),
         ((List.enumFrom i rs).filter (fun p => !scanSkip scan p.2)).flatMap
            (fun p => scanColor scan p.2)) := by
  intro rs
  induction rs with
  | nil => intro i; simp [scanGo, List.enumFrom]
  | cons r rest ih =>
    intro i
    by_cases h : scanSkip scan r
    · simp [scanGo, List.enumFrom, h, ih (i + 1)]
    · simp [scanGo, List.enumFrom, h, ih (i + 1)]

/-- C2: Scan decoding. For every index i of the ranges sequence whose
value is NaN, strictly below range_min, or strictly above range_max,
the reading contributes zero entries to the decoded output (neither a
position nor a color); every other reading contributes exactly one
position triple, range times cos of the angle, range times sin of the
angle, and 0, with angle equal to angle_min plus i times
angle_increment, and exactly one color triple. -/
theorem updateLaserScan_contribution (jcos jsin : JSNum → JSNum)
    (scan : ScanFrame) :
    updateLaserScan jcos jsin scan =
      ((scan.ranges.enum.filter (fun p => !scanSkip scan p.2)).flatMap
          (fun p => scanPoint jcos jsin scan p.1 p.2),
       (scan.ranges.enum.filter (fun p => !scanSkip scan p.2)).flatMap
          (fun p => scanColor scan p.2)) := by
  have h := scanGo_spec jcos jsin scan scan.ranges 0
  simpa [updateLaserScan, List.enum] using h

/-- C3: a scan frame with range_min equal to range_max and a retained
reading does not produce green channel 0; the source computes
normalized = 0 over 0 = NaN and pushes NaN as the green channel. The
colors array at this input is red 1, green NaN, blue 0. -/
theorem updateLaserScan_degenerate_nan :
    (updateLaserScan (fun _ => JSNum.val 1) (fun _ => JSNum.val 0)
        { ranges := [JSNum.val 1], angle_min := JSNum.val 0,
          angle_max := JSNum.val 0, angle_increment := JSNum.val 0,
          range_min := JSNum.val 1, range_max := JSNum.val 1 }).2 =
      [JSNum.val 1, JSNum.nan, JSNum.val 0] := by
  norm_num [updateLaserScan, scanGo, scanSkip, scanColor, scanPoint, scanAngle,
    jIsNaN, jlt, jgt, jsub, jadd, jneg, jdiv, jmul]

/-- A raw Image message as handled by handleRawImage: declared width,
height, pixel-encoding tag, and the payload bytes. The source first
converts a base64 string payload to a byte array via the host atob;
the model starts from the resulting byte array. Reads past the end of
the payload yield 0 (an undefined element stored into a clamped byte
array becomes 0) and writes past the end of the destination buffer are
discarded, as for a JavaScript Uint8ClampedArray. -/
structure RawImageMsg where
  width : Nat
  height : Nat
  encoding : String
  data : List Nat
deriving DecidableEq, Repr

/-- One iteration of the rgb8 loop at byte offset i: writes R, G, B
from offsets i, i+1, i+2 and alpha 255 at pixel slot i/3*4. -/
def rgb8Write (src : List Nat) (dst : List Nat) (i : Nat) : List Nat :=
  ((((dst.set (i / 3 * 4) (src.getD i 0)).set (i / 3 * 4 + 1)
      (src.getD (i + 1) 0)).set (i / 3 * 4 + 2)
      (src.getD (i + 2) 0)).set (i / 3 * 4 + 3) 255)

/-- The rgb8 branch: the loop runs for i = 0, 3, 6, ... while i is
below the payload length. -/
def rgb8Decode (src dst : List Nat) : List Nat :=
  (List.range' 0 ((src.length + 2) / 3) 3).foldl (rgb8Write src) dst

/-- One iteration of the bgr8 loop at byte offset i: channel order
reversed, R from offset i+2 and B from offset i. -/
def bgr8Write (src : List Nat) (dst : List Nat) (i : Nat) : List Nat :=
  ((((dst.set (i / 3 * 4) (src.getD (i + 2) 0)).set (i / 3 * 4 + 1)
      (src.getD (i + 1) 0)).set (i / 3 * 4 + 2)
      (src.getD i 0)).set (i / 3 * 4 + 3) 255)

/-- The bgr8 branch of the decoder. -/
def bgr8Decode (src dst : List Nat) : List Nat :=
  (List.range' 0 ((src.length + 2) / 3) 3).foldl (bgr8Write src) dst

/-- The rgba8 branch: a direct byte copy over the payload length. -/
def rgba8Decode (src dst : List Nat) : List Nat :=
  (List.range src.length).foldl (fun d i => d.set i (src.getD i 0)) dst

/-- One iteration of the bgra8 loop at byte offset i. -/
def bgra8Write (src : List Nat) (dst : List Nat) (i : Nat) : List Nat :=
  (((dst.set i (src.getD (i + 2) 0)).set (i + 1)
      (src.getD (i + 1) 0)).set (i + 2)
      (src.getD i 0)).set (i + 3) (src.getD (i + 3) 0)

/-- The bgra8 branch: the loop steps by 4 over the payload length. -/
def bgra8Decode (src dst : List Nat) : List Nat :=
  (List.range' 0 ((src.length + 3) / 4) 4).foldl (bgra8Write src) dst

/-- One iteration of the mono8 loop at byte offset i: the gray byte is
replicated into R, G and B at pixel slot i*4 with alpha 255. -/
def mono8Write (src : List Nat) (dst : List Nat) (i : Nat) : List Nat :=
  (((dst.set (i * 4) (src.getD i 0)).set (i * 4 + 1)
      (src.getD i 0)).set (i * 4 + 2)
      (src.getD i 0)).set (i * 4 + 3) 255

/-- The mono8 and grayscale branch of the decoder. -/
def mono8Decode (src dst : List Nat) : List Nat :=
  (List.range src.length).foldl (mono8Write src) dst

/-- The raw-image handler: drops the frame (returns none) when the
payload is empty or the encoding tag is unsupported; otherwise fills a
zero-initialized RGBA buffer of width * height * 4 bytes according to
the declared encoding and hands it to the canvas. -/
def handleRawImage (msg : RawImageMsg) : Option (List Nat) :=
  if msg.data.length = 0 then none
  else
    let imageData := List.replicate (msg.width * msg.height * 4) 0
    if msg.encoding = "rgb8" then some (rgb8Decode msg.data imageData)
    else if msg.encoding = "bgr8" then some (bgr8Decode msg.data imageData)
    else if msg.encoding = "rgba8" then some (rgba8Decode msg.data imageData)
    else if msg.encoding = "bgra8" then some (bgra8Decode msg.data imageData)
    else if msg.encoding = "mono8" ∨ msg.encoding = "grayscale" then
      some (mono8Decode msg.data imageData)
    else none

/-- The encoding tags the raw-image handler accepts. -/
def supportedEncoding (e : String) : Bool :=
  e = "rgb8" || e = "bgr8" || e = "rgba8" || e = "bgra8" ||
  e = "mono8" || e = "grayscale"

theorem foldl_set_length (f : List Nat → Nat → List Nat)
    (hf : ∀ d i, (f d i).length = d.length) :
    ∀ (l : List Nat) (d : List Nat), (l.foldl f d).length = d.length := by
  intro l
  induction l with
  | nil => intro d; rfl
  | cons a t ih =>
    intro d
    show (t.foldl f (f d a)).length = d.length
    rw [ih (f d a), hf d a]

theorem rgb8Decode_length (src dst : List Nat) :
    (rgb8Decode src dst).length = dst.length :=
  foldl_set_length _ (fun d i => by simp [rgb8Write]) _ dst

theorem bgr8Decode_length (src dst : List Nat) :
    (bgr8Decode src dst).length = dst.length :=
  foldl_set_length _ (fun d i => by simp [bgr8Write]) _ dst

theorem rgba8Decode_length (src dst : List Nat) :
    (rgba8Decode src dst).length = dst.length :=
  foldl_set_length _ (fun d i => by simp) _ dst

theorem bgra8Decode_length (src dst : List Nat) :
    (bgra8Decode src dst).length = dst.length :=
  foldl_set_length _ (fun d i => by simp [bgra8Write]) _ dst

theorem mono8Decode_length (src dst : List Nat) :
    (mono8Decode src dst).length = dst.length :=
  foldl_set_length _ (fun d i => by simp [mono8Write]) _ dst

/-- C4 (amended): the raw-image handler drops a frame exactly when the
payload is empty or the encoding tag is unsupported; a payload-length
mismatch against the declared dimensions is not detected. Whenever a
buffer is produced it has exactly width * height * 4 bytes: payload
bytes beyond the buffer are discarded and buffer bytes beyond the
payload stay zero. -/
theorem handleRawImage_characterization (msg : RawImageMsg) :
    (handleRawImage msg = none ↔
      (msg.data.length = 0 ∨ supportedEncoding msg.encoding = false)) ∧
    (∀ buf, handleRawImage msg = some buf →
      buf.length = msg.width * msg.height * 4) := by
  constructor
  · unfold handleRawImage supportedEncoding
    split_ifs with h1 h2 h3 h4 h5 h6 <;> simp_all
    tauto
  · intro buf hbuf
    unfold handleRawImage at hbuf
    split_ifs at hbuf
    all_goals first
      | exact Option.noConfusion hbuf
      | (injection hbuf with h
         subst h
         simp [rgb8Decode_length, bgr8Decode_length, rgba8Decode_length,
           bgra8Decode_length, mono8Decode_length])

/-- A well-formed 1 by 1 rgb8 message used to instantiate the
characterization of the raw-image handler. -/
def rgbOnePixelMsg : RawImageMsg :=
  { width := 1, height := 1, encoding := "rgb8", data := [9, 8, 7] }

/-- Witness for the C4 characterization at a concrete message: the
produced buffer has width * height * 4 bytes. -/
theorem handleRawImage_characterization_witness :
    ([9, 8, 7, 255] : List Nat).length =
      rgbOnePixelMsg.width * rgbOnePixelMsg.height * 4 :=
  (handleRawImage_characterization rgbOnePixelMsg).2 [9, 8, 7, 255] (by decide)

/-- A 2 by 1 rgb8 message whose payload holds only one pixel: 3 bytes
instead of the 6 implied by the declared dimensions. -/
def rgbShortPayloadMsg : RawImageMsg :=
  { width := 2, height := 1, encoding := "rgb8", data := [10, 20, 30] }

/-- C4 counterexample: a raw image whose payload length does not match
the declared dimensions is not dropped; the handler produces a partial
frame (second pixel left transparent black) and hands it to the
renderer. -/
theorem handleRawImage_mismatch_rendered :
    rgbShortPayloadMsg.data.length ≠
      rgbShortPayloadMsg.width * rgbShortPayloadMsg.height * 3 ∧
    handleRawImage rgbShortPayloadMsg =
      some [10, 20, 30, 255, 0, 0, 0, 0] := by decide

/-- The rgb8 wire bytes of a list of logical pixel colors: r, g, b per
pixel. -/
def rgbBytes (px : List (Nat × Nat × Nat)) : List Nat :=
  px.flatMap (fun p => [p.1, p.2.1, p.2.2])

/-- The bgr8 wire bytes of the same logical pixel colors: channel order
swapped to b, g, r per pixel. -/
def bgrBytes (px : List (Nat × Nat × Nat)) : List Nat :=
  px.flatMap (fun p => [p.2.2, p.2.1, p.1])

theorem rgbBytes_cons (p : Nat × Nat × Nat) (t : List (Nat × Nat × Nat)) :
    rgbBytes (p :: t) = p.1 :: p.2.1 :: p.2.2 :: rgbBytes t := rfl

theorem bgrBytes_cons (p : Nat × Nat × Nat) (t : List (Nat × Nat × Nat)) :
    bgrBytes (p :: t) = p.2.2 :: p.2.1 :: p.1 :: bgrBytes t := rfl

theorem rgbBytes_length (px : List (Nat × Nat × Nat)) :
    (rgbBytes px).length = 3 * px.length := by
  induction px with
  | nil => rfl
  | cons p t ih => rw [rgbBytes_cons]; simp [ih]; ring

theorem bgrBytes_length (px : List (Nat × Nat × Nat)) :
    (bgrBytes px).length = 3 * px.length := by
  induction px with
  | nil => rfl
  | cons p t ih => rw [bgrBytes_cons]; simp [ih]; ring

theorem getD_cons3 (a b c : Nat) (l : List Nat) (n d : Nat) :
    List.getD (a :: b :: c :: l) (n + 3) d = List.getD l n d := rfl

theorem bytes_getD (px : List (Nat × Nat × Nat)) :
    ∀ k : Nat,
      (rgbBytes px).getD (3 * k) 0 = (bgrBytes px).getD (3 * k + 2) 0 ∧
      (rgbBytes px).getD (3 * k + 1) 0 = (bgrBytes px).getD (3 * k + 1) 0 ∧
      (rgbBytes px).getD (3 * k + 2) 0 = (bgrBytes px).getD (3 * k) 0 := by
  induction px with
  | nil => intro k; simp [rgbBytes, bgrBytes]
  | cons p t ih =>
    intro k
    cases k with
    | zero => exact ⟨rfl, rfl, rfl⟩
    | succ k =>
      have e1 : 3 * (k + 1) = 3 * k + 3 := by ring
      have e2 : 3 * (k + 1) + 1 = 3 * k + 1 + 3 := by ring
      have e3 : 3 * (k + 1) + 2 = 3 * k + 2 + 3 := by ring
      rw [e3, e2, e1, rgbBytes_cons, bgrBytes_cons, getD_cons3, getD_cons3,
        getD_cons3, getD_cons3, getD_cons3, getD_cons3]
      exact ih k

theorem foldl_eq_on (f g : List Nat → Nat → List Nat) :
    ∀ (l : List Nat), (∀ i ∈ l, ∀ d, f d i = g d i) →
      ∀ (d : List Nat), List.foldl f d l = List.foldl g d l := by
  intro l
  induction l with
  | nil => intro _ d; rfl
  | cons a t ih =>
    intro h d
    show List.foldl f (f d a) t = List.foldl g (g d a) t
    rw [h a (List.mem_cons_self a t)]
    exact ih (fun i hi d' => h i (List.mem_cons_of_mem a hi) d') (g d a)

theorem writesAgree (px : List (Nat × Nat × Nat)) (k : Nat) (d : List Nat) :
    rgb8Write (rgbBytes px) d (3 * k) = bgr8Write (bgrBytes px) d (3 * k) := by
  have h := bytes_getD px k
  unfold rgb8Write bgr8Write
  rw [h.1, h.2.1, h.2.2]

theorem rgbDecode_eq_bgrDecode (px : List (Nat × Nat × Nat))
    (dst : List Nat) :
    rgb8Decode (rgbBytes px) dst = bgr8Decode (bgrBytes px) dst := by
  unfold rgb8Decode bgr8Decode
  rw [rgbBytes_length, bgrBytes_length]
  apply foldl_eq_on
  intro i hi d
  rw [List.mem_range'] at hi
  obtain ⟨k, _, hk⟩ := hi
  subst hk
  rw [Nat.zero_add]
  exact writesAgree px k d

/-- C5: Round-trip. For every list of logical pixel colors and declared
dimensions, decoding the bgr8 raw image whose bytes are the channel-
order-swapped form of the rgb8 raw image yields the same RGBA output
as decoding the rgb8 image. -/
theorem handleRawImage_rgb8_bgr8_roundtrip (px : List (Nat × Nat × Nat))
    (w h : Nat) :
    handleRawImage { width := w, height := h, encoding := "rgb8",
                     data := rgbBytes px } =
    handleRawImage { width := w, height := h, encoding := "bgr8",
                     data := bgrBytes px } := by
  unfold handleRawImage
  simp only [rgbBytes_length, bgrBytes_length]
  by_cases hz : 3 * px.length = 0
  · simp [hz]
  · rw [if_neg hz, if_neg hz]
    norm_num
    rw [if_neg (show ¬("bgr8" : String) = "rgb8" from by decide)]
    exact congrArg some (rgbDecode_eq_bgrDecode px _)

/-- The mutable fields of the visualization client relevant to the
navigation status machine and the connection lifecycle, with the
constructor's initial values as defaults. The goal payload type is a
parameter since the machine never inspects the stored coordinates.
The fields pendingReconnects, scheduledDelaysMs and connectAttempts
instrument the reconnect timers the source creates with setTimeout:
the count of scheduled-but-unfired reconnect timers, the list of their
delays in milliseconds, and the number of connectToROS invocations. -/
structure ClientState (G : Type) where
  navigationStatus : String := "IDLE"
  goalPosition : Option G := none
  goalMarkerVisible : Bool := false
  navControlsVisible : Bool := false
  connectionStatus : String := "disconnected"
  statusBarColor : String := "#FDB913"
  statusBarText : String := ""
  laserSubscribed : Bool := false
  pendingReconnects : Nat := 0
  scheduledDelaysMs : List Nat := []
  connectAttempts : Nat := 0
deriving DecidableEq, Repr

/-- The status-indicator color table; unknown statuses fall back to the
amber default. -/
def statusColor (status : String) : String :=
  if status = "connected" then "#00FF00"
  else if status = "connecting" then "#FDB913"
  else if status = "disconnected" then "#FF0000"
  else "#FDB913"

/-- updateStatus stores the status string and repaints the status bar
with the mapped color and the given message. -/
def updateStatus {G : Type} (s : ClientState G) (status message : String) :
    ClientState G :=
  { s with connectionStatus := status,
           statusBarColor := statusColor status,
           statusBarText := message }

/-- clearGoal drops the held goal position, hides the goal marker and
the navigation controls, and repaints the status bar as connected. -/
def clearGoal {G : Type} (s : ClientState G) : ClientState G :=
  updateStatus
    { s with goalPosition := none, goalMarkerVisible := false,
             navControlsVisible := false }
    "connected" "✓ Connected to ROS"

/-- The fixed table from numeric goal status codes to names; unmapped
codes yield none and the caller falls back to UNKNOWN. -/
def statusMap (code : Int) : Option String :=
  if code = 0 then some "PENDING"
  else if code = 1 then some "ACTIVE"
  else if code = 2 then some "PREEMPTED"
  else if code = 3 then some "SUCCEEDED"
  else if code = 4 then some "ABORTED"
  else if code = 5 then some "REJECTED"
  else if code = 6 then some "PREEMPTING"
  else if code = 7 then some "RECALLING"
  else if code = 8 then some "RECALLED"
  else if code = 9 then some "LOST"
  else none

/-- One entry of a GoalStatusArray status list; only the numeric status
code is read by the client. -/
structure GoalStatus where
  status : Int
deriving DecidableEq, Repr

/-- The deterministic side-effect signals of the navigation status
machine, one per branch of the status switch: navigating for ACTIVE,
goal reached for SUCCEEDED, navigation failed for ABORTED or REJECTED,
and a generic status update carrying the status name for the remaining
codes when a goal is held. -/
inductive Signal where
  | navigating : Signal
  | goalReached : Signal
  | navigationFailed : Signal
  | statusUpdate : String → Signal
deriving DecidableEq, Repr

/-- handleNavigationStatus: stores the mapped status name, then
switches on the code. ACTIVE repaints as navigating; SUCCEEDED
repaints as goal reached and clears the held goal; ABORTED and
REJECTED repaint the bar as disconnected with a failure message; any
other code repaints only when a goal is currently held. -/
def handleNavigationStatus {G : Type} (s : ClientState G)
    (status : GoalStatus) : ClientState G × List Signal :=
  let statusName := (statusMap status.status).getD "UNKNOWN"
  let s := { s with navigationStatus := statusName }
  if status.status = 1 then
    (updateStatus s "connected" ("🚁 Navigating... (" ++ statusName ++ ")"),
     [Signal.navigating])
  else if status.status = 3 then
    (clearGoal (updateStatus s "connected"
        ("✓ Goal Reached! (" ++ statusName ++ ")")),
     [Signal.goalReached])
  else if status.status = 4 ∨ status.status = 5 then
    (updateStatus s "disconnected"
        ("✗ Navigation Failed (" ++ statusName ++ ")"),
     [Signal.navigationFailed])
  else if s.goalPosition.isSome then
    (updateStatus s "connected" ("⏱ " ++ statusName), [Signal.statusUpdate statusName])
  else (s, [])

/-- A GoalStatusArray message as seen by the status subscription
callback: the status list may be missing (none) or empty. -/
structure GoalStatusArrayMsg where
  status_list : Option (List GoalStatus)
deriving DecidableEq, Repr

/-- The status subscription callback: only when the status list exists
and is non-empty is its last entry handed to handleNavigationStatus;
otherwise nothing happens. -/
def processStatusMessage {G : Type} (s : ClientState G)
    (msg : GoalStatusArrayMsg) : ClientState G × List Signal :=
  match msg.status_list with
  | some l =>
    if l.length > 0 then handleNavigationStatus s (l.getD (l.length - 1) ⟨0⟩)
    else (s, [])
  | none => (s, [])

/-- Feeding a sequence of status codes through the machine, collecting
the emitted signals in order. -/
def runStatuses {G : Type} (s : ClientState G) (codes : List Int) :
    ClientState G × List Signal :=
  codes.foldl
    (fun acc c =>
      let r := handleNavigationStatus acc.1 ⟨c⟩
      (r.1, acc.2 ++ r.2))
    (s, [])

theorem statusColor_connected : statusColor "connected" = "#00FF00" := by decide

theorem statusColor_disconnected :
    statusColor "disconnected" = "#FF0000" := by decide

/-- C1: Navigation status machine. Code 1 (ACTIVE) emits the navigating
signal and leaves the held goal unchanged; code 3 (SUCCEEDED) emits the
goal-reached signal and clears the held goal to none; codes 4 (ABORTED)
and 5 (REJECTED) emit the navigation-failed signal and leave the goal
as-is. Feeding codes 1 then 3 against a held goal yields the signals
navigating then goal reached and clears the goal; feeding code 4 with
no goal yields the navigation-failed signal with the goal still none. -/
theorem navigationStatusMachine_behavior {G : Type} (s : ClientState G) :
    ((handleNavigationStatus s ⟨1⟩).2 = [Signal.navigating] ∧
     (handleNavigationStatus s ⟨1⟩).1.goalPosition = s.goalPosition) ∧
    ((handleNavigationStatus s ⟨3⟩).2 = [Signal.goalReached] ∧
     (handleNavigationStatus s ⟨3⟩).1.goalPosition = none) ∧
    ((handleNavigationStatus s ⟨4⟩).2 = [Signal.navigationFailed] ∧
     (handleNavigationStatus s ⟨4⟩).1.goalPosition = s.goalPosition) ∧
    ((handleNavigationStatus s ⟨5⟩).2 = [Signal.navigationFailed] ∧
     (handleNavigationStatus s ⟨5⟩).1.goalPosition = s.goalPosition) ∧
    (s.goalPosition.isSome = true →
      (runStatuses s [1, 3]).2 = [Signal.navigating, Signal.goalReached] ∧
      (runStatuses s [1, 3]).1.goalPosition = none) ∧
    (s.goalPosition = none →
      (runStatuses s [4]).2 = [Signal.navigationFailed] ∧
      (runStatuses s [4]).1.goalPosition = none) := by
  refine ⟨⟨?_, ?_⟩, ⟨?_, ?_⟩, ⟨?_, ?_⟩, ⟨?_, ?_⟩, fun _ => ⟨?_, ?_⟩,
    fun h => ⟨?_, ?_⟩⟩ <;>
    simp [handleNavigationStatus, runStatuses, updateStatus, clearGoal,
      statusMap, *]

/-- A client currently holding a goal, used to instantiate the status
machine scenario with a held goal. -/
def heldGoalClient : ClientState Unit := { goalPosition := some () }

/-- A client holding no goal. -/
def idleClient : ClientState Unit := {}

/-- Witness for the C1 scenarios at concrete states: codes 1 then 3
against a held goal produce the signals navigating then goal reached,
and code 4 alone with no goal produces the navigation-failed signal. -/
theorem navigationStatusMachine_behavior_witness :
    (runStatuses heldGoalClient [1, 3]).2 =
        [Signal.navigating, Signal.goalReached] ∧
    (runStatuses idleClient [4]).2 = [Signal.navigationFailed] :=
  ⟨((navigationStatusMachine_behavior heldGoalClient).2.2.2.2.1
      (by decide)).1,
   ((navigationStatusMachine_behavior idleClient).2.2.2.2.2
      (by decide)).1⟩

/-- C9: handling a status message with code 4 (ABORTED) or 5 (REJECTED)
stores connectionStatus disconnected and paints the status indicator
with the disconnected color, for every prior state, although only the
navigation status changed and no transport event occurred; the
reconnect bookkeeping is untouched. -/
theorem navFailure_marks_disconnected {G : Type} (s : ClientState G) :
    ((handleNavigationStatus s ⟨4⟩).1.connectionStatus = "disconnected" ∧
     (handleNavigationStatus s ⟨4⟩).1.statusBarColor = "#FF0000" ∧
     (handleNavigationStatus s ⟨4⟩).1.pendingReconnects =
       s.pendingReconnects) ∧
    ((handleNavigationStatus s ⟨5⟩).1.connectionStatus = "disconnected" ∧
     (handleNavigationStatus s ⟨5⟩).1.statusBarColor = "#FF0000" ∧
     (handleNavigationStatus s ⟨5⟩).1.pendingReconnects =
       s.pendingReconnects) := by
  simp [handleNavigationStatus, updateStatus, statusMap,
    statusColor_disconnected]

/-- C10: a status message whose status list is missing or empty
produces no signal and no state change at all; the returned state is
exactly the input state. -/
theorem emptyStatusList_noop {G : Type} (s : ClientState G) :
    processStatusMessage s { status_list := none } = (s, []) ∧
    processStatusMessage s { status_list := some [] } = (s, []) :=
  ⟨rfl, rfl⟩

/-- The events a camera subscription can observe: the probe timer
firing, a compressed image arriving on the wire, and a raw image
arriving on the wire. -/
inductive CamEvent where
  | probeTimeout : CamEvent
  | compressedMsg : CamEvent
  | rawMsg : CamEvent
deriving DecidableEq, Repr

/-- The state of one camera subscription: which of the compressed and
raw topics is subscribed, the receivedMessage flag and the pending
probe timer of subscribeCompressedImage, counters of messages actually
dispatched to the image handlers, and the number of times the fallback
has run. -/
structure CamState where
  subCompressed : Bool
  subRaw : Bool
  receivedMessage : Bool
  timerPending : Bool
  compressedHandled : Nat
  rawHandled : Nat
  fallbackCount : Nat
deriving DecidableEq, Repr

/-- subscribeCompressedImage: subscribes to the compressed topic, arms
the 3000 ms probe timer and clears the receivedMessage flag. -/
def subscribeCompressedImage : CamState :=
  { subCompressed := true, subRaw := false, receivedMessage := false,
    timerPending := true, compressedHandled := 0, rawHandled := 0,
    fallbackCount := 0 }

/-- One event step of the camera subscription. A firing probe timer
with no message received unsubscribes the compressed topic and
subscribes the raw topic (the fallback); a compressed message arriving
while subscribed sets the flag, cancels the timer and is dispatched to
the handler; messages on unsubscribed topics are not dispatched. -/
def camStep (s : CamState) : CamEvent → CamState
  | .probeTimeout =>
    if s.timerPending then
      if !s.receivedMessage then
        { s with timerPending := false, subCompressed := false,
                 subRaw := true, fallbackCount := s.fallbackCount + 1 }
      else { s with timerPending := false }
    else s
  | .compressedMsg =>
    if s.subCompressed then
      { s with receivedMessage := true, timerPending := false,
               compressedHandled := s.compressedHandled + 1 }
    else s
  | .rawMsg =>
    if s.subRaw then { s with rawHandled := s.rawHandled + 1 } else s

/-- Running a camera subscription over a sequence of events. -/
def camRun (s : CamState) (es : List CamEvent) : CamState :=
  es.foldl camStep s

theorem camRun_append (s : CamState) (l1 l2 : List CamEvent) :
    camRun s (l1 ++ l2) = camRun (camRun s l1) l2 :=
  List.foldl_append camStep s l1 l2

theorem camRun_quiet (t1 : List CamEvent)
    (h1 : CamEvent.compressedMsg ∉ t1) (h2 : CamEvent.probeTimeout ∉ t1) :
    camRun subscribeCompressedImage t1 = subscribeCompressedImage := by
  induction t1 with
  | nil => rfl
  | cons e t ih =>
    have he : e ≠ CamEvent.compressedMsg := fun h => h1 (h ▸ List.mem_cons_self e t)
    have he2 : e ≠ CamEvent.probeTimeout := fun h => h2 (h ▸ List.mem_cons_self e t)
    have h1t : CamEvent.compressedMsg ∉ t := fun h => h1 (List.mem_cons_of_mem e h)
    have h2t : CamEvent.probeTimeout ∉ t := fun h => h2 (List.mem_cons_of_mem e h)
    have : camStep subscribeCompressedImage e = subscribeCompressedImage := by
      cases e with
      | probeTimeout => exact absurd rfl he2
      | compressedMsg => exact absurd rfl he
      | rawMsg => rfl
    show camRun (camStep subscribeCompressedImage e) t = subscribeCompressedImage
    rw [this]
    exact ih h1t h2t

theorem camRun_committed (t2 : List CamEvent) :
    ∀ s : CamState, s.subRaw = true → s.subCompressed = false →
      s.compressedHandled = 0 → s.fallbackCount = 1 →
      s.timerPending = false →
      (camRun s t2).subRaw = true ∧ (camRun s t2).subCompressed = false ∧
      (camRun s t2).compressedHandled = 0 ∧
      (camRun s t2).fallbackCount = 1 ∧
      (camRun s t2).timerPending = false := by
  induction t2 with
  | nil => intro s a b c d e; exact ⟨a, b, c, d, e⟩
  | cons ev t ih =>
    intro s a b c d e
    have hstep : camRun s (ev :: t) = camRun (camStep s ev) t := rfl
    rw [hstep]
    cases ev with
    | probeTimeout =>
      have hs : camStep s CamEvent.probeTimeout = s := by simp [camStep, e]
      rw [hs]; exact ih s a b c d e
    | compressedMsg =>
      have hs : camStep s CamEvent.compressedMsg = s := by simp [camStep, b]
      rw [hs]; exact ih s a b c d e
    | rawMsg =>
      have hs : camStep s CamEvent.rawMsg =
          { s with rawHandled := s.rawHandled + 1 } := by simp [camStep, a]
      rw [hs]
      exact ih { s with rawHandled := s.rawHandled + 1 } a b c d e

/-- C6: Camera fallback probe. If the probe timer fires with zero
compressed messages delivered since subscribing, then after any
further events exactly the raw subscription is active, the compressed
handler has been invoked zero times in total (a late compressed
message is never dispatched), and the fallback has run exactly once. -/
theorem cameraFallback_commits_raw (t1 t2 : List CamEvent)
    (h1 : CamEvent.compressedMsg ∉ t1)
    (h2 : CamEvent.probeTimeout ∉ t1) :
    (camRun subscribeCompressedImage
        (t1 ++ CamEvent.probeTimeout :: t2)).subRaw = true ∧
    (camRun subscribeCompressedImage
        (t1 ++ CamEvent.probeTimeout :: t2)).subCompressed = false ∧
    (camRun subscribeCompressedImage
        (t1 ++ CamEvent.probeTimeout :: t2)).compressedHandled = 0 ∧
    (camRun subscribeCompressedImage
        (t1 ++ CamEvent.probeTimeout :: t2)).fallbackCount = 1 := by
  rw [camRun_append, camRun_quiet t1 h1 h2]
  show (camRun (camStep subscribeCompressedImage CamEvent.probeTimeout) t2).subRaw = true ∧ _
  have hstep : camStep subscribeCompressedImage CamEvent.probeTimeout =
      { subCompressed := false, subRaw := true, receivedMessage := false,
        timerPending := false, compressedHandled := 0, rawHandled := 0,
        fallbackCount := 1 } := by decide
  rw [hstep]
  have h := camRun_committed t2
    { subCompressed := false, subRaw := true, receivedMessage := false,
      timerPending := false, compressedHandled := 0, rawHandled := 0,
      fallbackCount := 1 } rfl rfl rfl rfl rfl
  exact ⟨h.1, h.2.1, h.2.2.1, h.2.2.2.1⟩

/-- Witness for C6 at a concrete trace: no events before the timer
fires, then one late compressed message; the subscription ends raw
with no compressed message ever dispatched. -/
theorem cameraFallback_commits_raw_witness :
    (camRun subscribeCompressedImage
        ([] ++ CamEvent.probeTimeout :: [CamEvent.compressedMsg])).subRaw =
      true ∧
    (camRun subscribeCompressedImage
        ([] ++ CamEvent.probeTimeout :: [CamEvent.compressedMsg])).compressedHandled = 0 := by
  have h := cameraFallback_commits_raw [] [CamEvent.compressedMsg]
    (by decide) (by decide)
  exact ⟨h.1, h.2.2.1⟩

/-- The events the bridge connection observes: the transport opening,
a transport error, the transport closing, a previously scheduled
reconnect timer firing, and the caller invoking disconnect. -/
inductive ConnEvent where
  | transportOpen : ConnEvent
  | transportError : ConnEvent
  | transportClose : ConnEvent
  | reconnectTimer : ConnEvent
  | callerDisconnect : ConnEvent
deriving DecidableEq, Repr

/-- connectToROS: paints the status bar as connecting and opens a new
transport session; each invocation is one connection attempt. -/
def connectToROS {G : Type} (s : ClientState G) : ClientState G :=
  { updateStatus s "connecting" "Connecting to ROS..." with
    connectAttempts := s.connectAttempts + 1 }

/-- One event step of the connection lifecycle, as registered by
connectToROS. The open handler repaints as connected and establishes
the subscriptions; the error handler only repaints as disconnected;
the close handler repaints as disconnected and schedules one reconnect
after 3000 ms; a scheduled timer firing calls connectToROS again; the
disconnect method unsubscribes the scan topic and closes the socket,
cancelling nothing and setting no flag (the transport then emits its
own close event). -/
def connStep {G : Type} (s : ClientState G) : ConnEvent → ClientState G
  | .transportOpen =>
    { updateStatus s "connected" "✓ Connected to ROS" with
      laserSubscribed := true }
  | .transportError =>
    updateStatus s "disconnected" "✗ Connection Error - Check rosbridge"
  | .transportClose =>
    { updateStatus s "disconnected" "✗ Disconnected from ROS" with
      pendingReconnects := s.pendingReconnects + 1,
      scheduledDelaysMs := s.scheduledDelaysMs ++ [3000] }
  | .reconnectTimer =>
    if s.pendingReconnects > 0 then
      connectToROS { s with pendingReconnects := s.pendingReconnects - 1 }
    else s
  | .callerDisconnect => { s with laserSubscribed := false }

/-- Running the connection lifecycle over a sequence of events. -/
def connRun {G : Type} (s : ClientState G) (es : List ConnEvent) :
    ClientState G :=
  es.foldl connStep s

/-- The state right after the constructor calls connectToROS for the
first time. -/
def connInitU : ClientState Unit := connectToROS {}

/-- C7 counterexample: after a caller-initiated disconnect, the closing
transport schedules a reconnect and the client reconnects: from the
connected state, the trace disconnect, close, timer leaves a second
connection attempt; moreover a reconnect already pending at the time
of the disconnect call is not cancelled by it. -/
theorem disconnect_then_reconnects :
    (connRun connInitU [ConnEvent.transportOpen, ConnEvent.callerDisconnect,
        ConnEvent.transportClose, ConnEvent.reconnectTimer]).connectAttempts
      = 2 ∧
    (connRun connInitU [ConnEvent.transportClose,
        ConnEvent.callerDisconnect]).pendingReconnects = 1 := by decide

/-- C7 (amended): the disconnect method only unsubscribes and closes
the socket; it cancels no pending reconnect timer and sets no shutdown
flag, so the transport-close event that follows schedules a reconnect
after the fixed 3000 ms and the timer firing performs one more
connection attempt even after intentional teardown. -/
theorem disconnect_schedules_reconnect {G : Type} (s : ClientState G) :
    (connStep s ConnEvent.callerDisconnect).pendingReconnects =
      s.pendingReconnects ∧
    (connStep s ConnEvent.callerDisconnect).scheduledDelaysMs =
      s.scheduledDelaysMs ∧
    (connStep (connStep s ConnEvent.callerDisconnect)
        ConnEvent.transportClose).pendingReconnects =
      s.pendingReconnects + 1 ∧
    (connStep (connStep s ConnEvent.callerDisconnect)
        ConnEvent.transportClose).scheduledDelaysMs =
      s.scheduledDelaysMs ++ [3000] ∧
    (connRun s [ConnEvent.callerDisconnect, ConnEvent.transportClose,
        ConnEvent.reconnectTimer]).connectAttempts =
      s.connectAttempts + 1 := by
  refine ⟨rfl, rfl, rfl, rfl, ?_⟩
  show (connStep (connStep (connStep s ConnEvent.callerDisconnect)
      ConnEvent.transportClose) ConnEvent.reconnectTimer).connectAttempts =
    s.connectAttempts + 1
  simp [connStep, connectToROS, updateStatus]

/-- C8 counterexample: a transport-error event and a transport-close
event do not trigger the same retry policy: from the initial state an
error schedules no reconnect and records no delay, while a close
schedules one reconnect with the 3000 ms delay. -/
theorem transport_error_no_retry :
    (connStep connInitU ConnEvent.transportError).connectionStatus =
      "disconnected" ∧
    (connStep connInitU ConnEvent.transportError).pendingReconnects = 0 ∧
    (connStep connInitU ConnEvent.transportError).scheduledDelaysMs = [] ∧
    (connStep connInitU ConnEvent.transportClose).pendingReconnects = 1 ∧
    (connStep connInitU ConnEvent.transportClose).scheduledDelaysMs =
      [3000] := by decide

/-- C8 (amended): both a transport-error and a transport-close event
produce the Disconnected status transition, but only the close event
schedules the single reconnect attempt after the fixed 3000 ms delay;
a transport error alone schedules no retry. -/
theorem transport_event_asymmetry {G : Type} (s : ClientState G) :
    (connStep s ConnEvent.transportError).connectionStatus =
      "disconnected" ∧
    (connStep s ConnEvent.transportError).pendingReconnects =
      s.pendingReconnects ∧
    (connStep s ConnEvent.transportError).scheduledDelaysMs =
      s.scheduledDelaysMs ∧
    (connStep s ConnEvent.transportClose).connectionStatus =
      "disconnected" ∧
    (connStep s ConnEvent.transportClose).pendingReconnects =
      s.pendingReconnects + 1 ∧
    (connStep s ConnEvent.transportClose).scheduledDelaysMs =
      s.scheduledDelaysMs ++ [3000] :=
  ⟨rfl, rfl, rfl, rfl, rfl, rfl⟩
